import Mathlib

/-!
Verification of the orvi-agent sequence-execution engine.

The development shallowly embeds the Python sources:
  * `sequence_executor.py` — `SequenceExecutor` (log, resolve_data,
    process_steps, process_sequence, execute);
  * `automaton.py` — `PlaywrightEngine._resolve_value`, `execute_action`
    (file generation of the captcha path) and `SmartRetryLoop.run`
    (retry loop, validation polling, artifact cleanup).

Browser, captcha-service and oracle behaviour is abstracted as an
explicit "world": a function from the history of driver calls to a
response.  Wall-clock time (sleeps, timestamps inside log lines) is not
modelled; log entries are modelled as (level, message) pairs.
-/

namespace Orvi

/-- Python `str.strip()` on a list of characters: drop whitespace from
both ends. -/
def pstrip (l : List Char) : List Char :=
  ((l.dropWhile Char.isWhitespace).reverse.dropWhile Char.isWhitespace).reverse

/-- Embeds the challenge-key normalization of
`sequence_executor.py` line 105:
`raw_text.strip().replace("0", "") if raw_text.startswith("0") and len(raw_text) == 2 else raw_text.strip()`.
`replace("0", "")` deletes every `'0'` character, embedded as a filter. -/
def normalizeKey (raw : String) : String :=
  if raw.data.head? = some '0' ∧ raw.data.length = 2 then
    String.mk ((pstrip raw.data).filter (fun c => c ≠ '0'))
  else
    String.mk (pstrip raw.data)

/-- The chunk of text between the start of `l` and the first occurrence
of the separator `env:`, i.e. the element at index 1 of Python
`("env:" ++ l).split("env:")` — `split` scans left to right for the next
non-overlapping separator occurrence. -/
def chunkAfterEnv : List Char → List Char
  | [] => []
  | c :: rest =>
    if ('e' :: 'n' :: 'v' :: ':' :: []).isPrefixOf (c :: rest) then []
    else c :: chunkAfterEnv rest

/-- Embeds `SequenceExecutor.resolve_data` (`sequence_executor.py`
lines 35-42).  `data` may be absent (`None`); a present string starting
with `env:` is looked up via `os.getenv(data.split("env:")[1], "")`,
everything else is returned unchanged (`""` is falsy and also returned
unchanged, matching the `if data` guard). -/
def resolve_data (env : String → Option String) (data : Option String) :
    Option String :=
  match data with
  | none => none
  | some s =>
    match s.data with
    | 'e' :: 'n' :: 'v' :: ':' :: rest =>
      some ((env (String.mk (chunkAfterEnv rest))).getD "")
    | _ => some s

/-- Embeds `PlaywrightEngine._resolve_value` (`automaton.py` lines
201-206): `value.split(":", 1)[1]` is the suffix after the first `':'`;
the `os.getenv` fallback is the ORIGINAL string `value`, not `""`. -/
def resolve_value (env : String → Option String) (value : String) : String :=
  match value.data with
  | 'e' :: 'n' :: 'v' :: ':' :: _ =>
    let env_var := String.mk ((value.data.dropWhile (fun c => c ≠ ':')).drop 1)
    (env env_var).getD value
  | _ => value

/-- Python `url.rstrip('/')`: drop trailing slashes. -/
def rstripSlash (s : String) : String :=
  String.mk ((s.data.reverse.dropWhile (fun c => c = '/')).reverse)

/-- A log entry of `SequenceExecutor.log`: the level string and the
message (the wall-clock timestamp prefix is not modelled). -/
structure LogEntry where
  level : String
  message : String
deriving Repr, DecidableEq

def mkLog (level message : String) : LogEntry := ⟨level, message⟩

/-- `SequenceExecutor.log` with its default level `"INFO"`. -/
def infoL (message : String) : LogEntry := mkLog "INFO" message

/-- One step dictionary, with the fields read by `process_steps`
(defaults as in `step.get(...)` and the API `StepModel`). -/
structure Step where
  action : String
  element : Option String := none
  data : Option String := none
  wait_after : Int := 1
  optional : Bool := false
deriving Repr, DecidableEq

/-- One sequence dictionary, with the fields read by `process_sequence`
(defaults as in `sequence.get(...)` and the API `SequenceModel`). -/
structure Sequence where
  title : String
  intents_number : Nat := 1
  target_element : Option String := none
  target_element_wait : Nat := 0
  steps : List Step := []
deriving Repr, DecidableEq

/-- A primitive interaction dispatched to the browser driver
(`engine.page...` / `engine.execute_action` / engine lifecycle). -/
inductive DCall where
  | start
  | stop
  | getUrl
  | reload
  | goto (url : String)
  | waitForSelector (selector : String) (timeoutMs : Nat)
  | click (selector : String)
  | press (key : String)
  | typeText (text : String)
  | isVisible (selector : String)
  | solveCaptcha (imageElement : String) (inputElement : Option String)
  | innerText (selector : String)
  | fill (selector : String) (value : String)
  | screenshot (path : String)
deriving Repr, DecidableEq

/-- The driver's answer to one call: a returned string, a returned
boolean, or a raised exception carrying a message. -/
inductive DResp where
  | ok (ret : String)
  | okBool (b : Bool)
  | fail (msg : String)
deriving Repr, DecidableEq

/-- The environment of a run: how the browser answers each driver call
(as a function of the call history, so answers may depend on state) and
the timestamp-and-uuid screenshot file name the run would generate. -/
structure World where
  resp : List DCall → DCall → DResp
  screenshotName : String

deriving instance DecidableEq for Except

/-- Interpret a response where the Python call site ignores the returned
value: only an exception matters. -/
def asUnit : DResp → Except String Unit
  | .fail e => .error e
  | _ => .ok ()

/-- Interpret a response as a returned string (`page.url`,
`page.inner_text`). -/
def asStr : DResp → Except String String
  | .ok s => .ok s
  | .okBool b => .ok (toString b)
  | .fail e => .error e

/-- Interpret a response as a returned boolean (`page.is_visible`). -/
def asBool : DResp → Except String Bool
  | .ok s => .ok (s ≠ "")
  | .okBool b => .ok b
  | .fail e => .error e

/-- Dispatch a list of calls in order, stopping at the first raised
exception (each Python `await` on its own line). -/
def callSeq (w : World) : List DCall → List DCall → List DCall × Except String Unit
  | t, [] => (t, .ok ())
  | t, c :: cs =>
    match asUnit (w.resp t c) with
    | .error e => (t ++ [c], .error e)
    | .ok _ => callSeq w (t ++ [c]) cs

/-- The `navigate` branch of `process_steps` (lines 58-66): compare the
current url with the target (both with trailing slashes stripped), then
reload or goto.  A `None` data raises (`None.rstrip`). -/
def bodyNavigate (w : World) (t : List DCall) (data : Option String) :
    List DCall × List LogEntry × Except String Unit :=
  let r0 := asStr (w.resp t DCall.getUrl)
  let t := t ++ [DCall.getUrl]
  match r0 with
  | .error e => (t, [], .error e)
  | .ok current =>
    match data with
    | none => (t, [], .error "AttributeError: NoneType object has no attribute rstrip")
    | some d =>
      let current_url := rstripSlash current
      let target_url := rstripSlash d
      if current_url = target_url then
        let lg := [infoL ("   🔄 Already on " ++ target_url ++ ". Forcing RELOAD to reset state...")]
        let r := asUnit (w.resp t DCall.reload)
        (t ++ [DCall.reload], lg, r)
      else
        let r := asUnit (w.resp t (DCall.goto d))
        (t ++ [DCall.goto d], [], r)

/-- The `input` branch (lines 68-73): wait, click, select-all, delete,
then type the resolved data. -/
def bodyInput (w : World) (t : List DCall) (element data : Option String) :
    List DCall × List LogEntry × Except String Unit :=
  match element with
  | none => (t, [], .error "TypeError: selector must be a string")
  | some el =>
    let (t, r) := callSeq w t
      [DCall.waitForSelector el 5000, DCall.click el,
       DCall.press "Control+A", DCall.press "Backspace"]
    match r with
    | .error e => (t, [], .error e)
    | .ok _ =>
      match data with
      | none => (t, [], .error "TypeError: text must be a string")
      | some d =>
        let r := asUnit (w.resp t (DCall.typeText d))
        (t ++ [DCall.typeText d], [], r)

/-- The `click` branch (lines 75-78): a shorter wait timeout when the
step is optional. -/
def bodyClick (w : World) (t : List DCall) (element : Option String)
    (optional : Bool) : List DCall × List LogEntry × Except String Unit :=
  match element with
  | none => (t, [], .error "TypeError: selector must be a string")
  | some el =>
    let timeout := if optional then 2000 else 5000
    let (t, r) := callSeq w t [DCall.waitForSelector el timeout, DCall.click el]
    (t, [], r)

/-- The `captcha` branch (lines 80-92): probe visibility without
raising when absent; solve via `engine.execute_action` when present. -/
def bodyCaptcha (w : World) (t : List DCall) (element data : Option String) :
    List DCall × List LogEntry × Except String Unit :=
  match data with
  | none => (t, [], .error "TypeError: selector must be a string")
  | some d =>
    let r0 := asBool (w.resp t (DCall.isVisible d))
    let t := t ++ [DCall.isVisible d]
    match r0 with
    | .error e => (t, [], .error e)
    | .ok true =>
      let lg := [infoL ("   🧩 Captcha detected (" ++ d ++ "). Solving...")]
      let r := asUnit (w.resp t (DCall.solveCaptcha d element))
      (t ++ [DCall.solveCaptcha d element], lg, r)
    | .ok false =>
      (t, [infoL ("   ℹ️ Captcha NOT detected (" ++ d ++ "). Skipping step.")], .ok ())

/-- The `dynamic_input` branch (lines 97-117): read the challenge key,
normalize, look it up in the coordinate table; a falsy looked-up value
(`None` or `""`, Python `if value:`) raises the not-found exception. -/
def bodyDynamicInput (w : World) (coords : String → Option String)
    (t : List DCall) (element data : Option String) :
    List DCall × List LogEntry × Except String Unit :=
  match data with
  | none => (t, [], .error "TypeError: selector must be a string")
  | some rs =>
    let c1 := DCall.waitForSelector rs 5000
    let r1 := asUnit (w.resp t c1)
    let t := t ++ [c1]
    match r1 with
    | .error e => (t, [], .error e)
    | .ok _ =>
      let c2 := DCall.innerText rs
      let r2 := asStr (w.resp t c2)
      let t := t ++ [c2]
      match r2 with
      | .error e => (t, [], .error e)
      | .ok raw =>
        let key := normalizeKey raw
        let lg := [infoL ("   🔑 Challenge Key Detected: '" ++ key ++ "' (Raw: '" ++ raw ++ "')")]
        match coords key with
        | some v =>
          if v = "" then
            (t, lg, .error ("Key '" ++ key ++ "' not found in provided coordinates"))
          else
            let lg := lg ++ [infoL ("   ✅ Value Found: " ++ v)]
            match element with
            | none => (t, lg, .error "TypeError: selector must be a string")
            | some ws =>
              let (t, r) := callSeq w t [DCall.waitForSelector ws 5000, DCall.fill ws v]
              (t, lg, r)
        | none => (t, lg, .error ("Key '" ++ key ++ "' not found in provided coordinates"))

/-- The dispatch on the step kind in the `try` block of `process_steps`
(lines 58-117): `wait` does nothing, an unknown kind matches no branch
and also does nothing. -/
def dispatchBody (w : World) (env coords : String → Option String)
    (t : List DCall) (step : Step) :
    List DCall × List LogEntry × Except String Unit :=
  let data := resolve_data env step.data
  match step.action with
  | "navigate" => bodyNavigate w t data
  | "input" => bodyInput w t step.element data
  | "click" => bodyClick w t step.element step.optional
  | "captcha" => bodyCaptcha w t step.element data
  | "wait" => (t, [], Except.ok ())
  | "dynamic_input" => bodyDynamicInput w coords t step.element data
  | _ => (t, [], Except.ok ())

/-- The body of the `try` block of `process_steps` (lines 57-122): the
dispatch, then the uniform post-step wait (a sleep, no driver call),
reached only when the dispatch did not raise.  Logs are returned as the
delta appended to `self.logs`. -/
def stepBody (w : World) (env coords : String → Option String)
    (t : List DCall) (step : Step) :
    List DCall × List LogEntry × Except String Unit :=
  match dispatchBody w env coords t step with
  | (t1, lg1, .error e) => (t1, lg1, .error e)
  | (t1, lg1, .ok _) =>
    if step.wait_after > 0 then
      (t1, lg1 ++ [infoL ("   ⏳ Waiting " ++ toString step.wait_after ++ "s...")], .ok ())
    else (t1, lg1, .ok ())

/-- Python `element or 'N/A'` in the step banner log. -/
def elOrNA : Option String → String
  | some el => if el = "" then "N/A" else el
  | none => "N/A"

/-- One iteration of the `for step in steps` loop of `process_steps`,
including its `try`/`except` (lines 48-129): an optional step absorbs
the exception with a default-level log; a mandatory one logs at `ERROR`
and re-raises. -/
def processStep (w : World) (env coords : String → Option String)
    (t : List DCall) (step : Step) :
    List DCall × List LogEntry × Option String :=
  let lg0 := [infoL ("➡️ Executing Step: " ++ step.action ++ " on " ++
    elOrNA step.element ++ " (Optional: " ++ toString step.optional ++ ")")]
  let (t1, lg1, r) := stepBody w env coords t step
  match r with
  | .ok _ => (t1, lg0 ++ lg1, none)
  | .error e =>
    if step.optional then
      (t1, lg0 ++ lg1 ++ [infoL ("   ⚠️ Optional step failed/skipped: " ++ e ++ ". Continuing...")], none)
    else
      (t1, lg0 ++ lg1 ++ [mkLog "ERROR" ("❌ Error in step " ++ step.action ++ ": " ++ e)], some e)

/-- `SequenceExecutor.process_steps` (lines 44-129): run the steps in
order; the first re-raised exception aborts the remaining steps. -/
def process_steps (w : World) (env coords : String → Option String) :
    List DCall → List Step → List DCall × List LogEntry × Option String
  | t, [] => (t, [], none)
  | t, step :: rest =>
    let (t1, lg1, r) := processStep w env coords t step
    match r with
    | none =>
      let (t2, lg2, r2) := process_steps w env coords t1 rest
      (t2, lg1 ++ lg2, r2)
    | some e => (t1, lg1, some e)

/-- Python `if target:` on `sequence.get("target_element")`: truthy only
for a present, non-empty selector. -/
def targetTruthy (seq : Sequence) : Bool :=
  match seq.target_element with
  | some tg => tg ≠ ""
  | none => false

/-- The `for attempt in range(1, intents + 1)` loop of
`process_sequence` (lines 141-166), by recursion on the attempts left:
a clean pass with no target returns `true` at once; with a target it
waits for it (found: `true`, not found: warn and retry); a raised step
exception is logged at `ERROR` and retried; exhaustion logs the final
`ERROR` and returns `false`. -/
def seqAttempts (w : World) (env coords : String → Option String)
    (seq : Sequence) :
    List DCall → Nat → Nat → List DCall × List LogEntry × Bool
  | t, _, 0 =>
    (t, [mkLog "ERROR" ("🛑 SEQUENCE FAILED: " ++ seq.title ++ " failed after " ++
      toString seq.intents_number ++ " attempts.")], false)
  | t, i, n + 1 =>
    let lg0 := [infoL ("   🔄 Attempt " ++ toString i ++ "/" ++ toString seq.intents_number)]
    let (t1, lg1, err) := process_steps w env coords t seq.steps
    match err with
    | some e =>
      let lg2 := [mkLog "ERROR" ("   ❌ EXCEPTION: " ++ e)]
      let lg3 := if n > 0 then [infoL "   ♻️ Retrying..."] else []
      let (t2, lg4, b) := seqAttempts w env coords seq t1 (i + 1) n
      (t2, lg0 ++ lg1 ++ lg2 ++ lg3 ++ lg4, b)
    | none =>
      if targetTruthy seq then
        let tg := seq.target_element.getD ""
        let lgT := [infoL ("   🎯 Waiting up to " ++ toString seq.target_element_wait ++
          "s for target '" ++ tg ++ "'...")]
        let c := DCall.waitForSelector tg (seq.target_element_wait * 1000)
        let r := asUnit (w.resp t1 c)
        let t2 := t1 ++ [c]
        match r with
        | .ok _ =>
          (t2, lg0 ++ lg1 ++ lgT ++ [infoL ("   ✅ SUCCESS: Target '" ++ tg ++ "' found.")], true)
        | .error _ =>
          let lgW := [mkLog "WARNING" ("   ⚠️ FAILURE: Target '" ++ tg ++
            "' NOT found after attempt " ++ toString i ++ ".")]
          let lg3 := if n > 0 then [infoL "   ♻️ Retrying..."] else []
          let (t3, lg4, b) := seqAttempts w env coords seq t2 (i + 1) n
          (t3, lg0 ++ lg1 ++ lgT ++ lgW ++ lg3 ++ lg4, b)
      else
        (t1, lg0 ++ lg1 ++ [infoL "   ✅ SUCCESS: Sequence completed (no target defined)."], true)

/-- `SequenceExecutor.process_sequence` (lines 131-166). -/
def process_sequence (w : World) (env coords : String → Option String)
    (t : List DCall) (seq : Sequence) : List DCall × List LogEntry × Bool :=
  let lg0 := [infoL ("🎬 SELECTING SEQUENCE: " ++ seq.title ++ " (Max Intents: " ++
    toString seq.intents_number ++ ")")]
  let (t1, lg1, b) := seqAttempts w env coords seq t 1 seq.intents_number
  (t1, lg0 ++ lg1, b)

/-- The `for seq in sequences` loop of `execute` (lines 181-186): the
first sequence returning `false` logs the abort and breaks; no step of
any later sequence is dispatched. -/
def runSeqs (w : World) (env coords : String → Option String) :
    List DCall → List Sequence → List DCall × List LogEntry × Bool
  | t, [] => (t, [], true)
  | t, s :: rest =>
    let (t1, lg1, ok) := process_sequence w env coords t s
    if ok then
      let (t2, lg2, b) := runSeqs w env coords t1 rest
      (t2, lg1 ++ lg2, b)
    else
      (t1, lg1 ++ [mkLog "ERROR" "💀 FLOW ABORTED: Critical sequence failed."], false)

/-- The result dictionary of `SequenceExecutor.execute`. -/
structure ExecResult where
  success : Bool
  logs : List LogEntry
  screenshot : Option String
deriving Repr, DecidableEq

/-- `SequenceExecutor.execute` (lines 168-220): start the engine, run
the sequences, log the finish line; any exception raised inside the
`try` (here: a failing `engine.start`) is caught and converted to
`success = False` with the critical log line; the `finally` block always
attempts the screenshot (failure: `screenshot = None`) and the engine
stop (failure: a warning log).  Returns the result dictionary together
with the full driver-call trace of the run.  The elapsed-time figures of
the finish line are wall clock and not modelled. -/
def execute (w : World) (env coords : String → Option String)
    (sequences : List Sequence) : ExecResult × List DCall :=
  let r0 := asUnit (w.resp [] DCall.start)
  let t0 := [DCall.start]
  let (t1, lg1, success) :=
    match r0 with
    | .error e =>
      (t0, [mkLog "ERROR" ("🔥 CRITICAL UNHANDLED ERROR: " ++ e)], false)
    | .ok _ =>
      let (t1, lg, ok) := runSeqs w env coords t0 sequences
      (t1, lg ++ [infoL "🎉 FLOW FINISHED IN: 0m 0s"], ok)
  let fname := w.screenshotName
  let cS := DCall.screenshot fname
  let rS := asUnit (w.resp t1 cS)
  let t2 := t1 ++ [cS]
  let (lg2, shot) :=
    match rS with
    | .ok _ => ([infoL ("📸 Screenshot saved: " ++ fname)], some fname)
    | .error e => ([mkLog "ERROR" ("❌ Failed to take screenshot: " ++ e)], none)
  let rT := asUnit (w.resp t2 DCall.stop)
  let t3 := t2 ++ [DCall.stop]
  let lg3 :=
    match rT with
    | .ok _ => []
    | .error e => [mkLog "WARNING" ("⚠️ Error stopping engine (likely already closed): " ++ e)]
  ({ success := success, logs := lg1 ++ lg2 ++ lg3, screenshot := shot }, t3)

/-! ### The `automaton.py` mission runner (`SmartRetryLoop`)

Generated artifacts (captcha crops, processed captcha images,
validation screenshots) are modelled by their creation index: the state
carries a global counter and every generated file receives the current
counter value, so a smaller number always means an earlier creation.
`PlaywrightEngine.generated_files` and `SmartRetryLoop.generated_files`
are the two lists the cleanup concatenates. -/

/-- One action dictionary of a mission step, with the fields read by
`PlaywrightEngine.execute_action` and `SmartRetryLoop.run`.
`promptIa = none` models the `"prompt_ia"` key being absent;
`pollingAttempts` is `validation_settings.get("polling_attempts", 3)`
of this action. -/
structure AAction where
  kind : String
  optional : Bool := false
  promptIa : Option String := none
  pollingAttempts : Nat := 3
deriving Repr, DecidableEq

/-- The outcomes the environment chooses during a mission run, each
indexed by its own invocation counter: whether the n-th ordinary driver
action raises, whether the n-th captcha element screenshot finds the
element, whether the n-th image preprocessing succeeds, whether the
n-th anti-captcha call solves, and whether the n-th oracle validation
passes. -/
structure AWorld where
  actionFails : Nat → Bool
  captchaFound : Nat → Bool
  processOk : Nat → Bool
  solved : Nat → Bool
  verdictPass : Nat → Bool

/-- State of a `SmartRetryLoop.run`: the two generated-file lists, the
global creation counter, and the per-category invocation counters. -/
structure ASt where
  engineFiles : List Nat := []
  loopFiles : List Nat := []
  counter : Nat := 0
  nAct : Nat := 0
  nCap : Nat := 0
  nProc : Nat := 0
  nSolve : Nat := 0
  nVal : Nat := 0
deriving Repr, DecidableEq

/-- Generate one file tracked by `engine.generated_files`
(`automaton.py` lines 269 and 274). -/
def genEngineFile (st : ASt) : ASt :=
  { st with engineFiles := st.engineFiles ++ [st.counter], counter := st.counter + 1 }

/-- Generate one validation screenshot tracked by
`SmartRetryLoop.generated_files` (line 380). -/
def genLoopFile (st : ASt) : ASt :=
  { st with loopFiles := st.loopFiles ++ [st.counter], counter := st.counter + 1 }

/-- The `solve_captcha` branch of `PlaywrightEngine.execute_action`
(`automaton.py` lines 252-288): screenshot the captcha element
(generating a file tracked by the engine), preprocess it (generating a
second file on success), solve; an empty solver answer raises; an
absent captcha element only logs. -/
def captchaBody (w : AWorld) (st : ASt) : ASt × Bool :=
  let found := w.captchaFound st.nCap
  let st := { st with nCap := st.nCap + 1 }
  if found then
    let st := genEngineFile st
    let pOk := w.processOk st.nProc
    let st := { st with nProc := st.nProc + 1 }
    let st := if pOk then genEngineFile st else st
    let sol := w.solved st.nSolve
    let st := { st with nSolve := st.nSolve + 1 }
    (st, !sol)
  else (st, false)

/-- The kind dispatch of `PlaywrightEngine.execute_action` (lines
226-291): ordinary kinds raise when the driver fails; unknown kinds
only log. -/
def actionDispatchA (w : AWorld) (st : ASt) (a : AAction) : ASt × Bool :=
  if a.kind = "solve_captcha" then captchaBody w st
  else if a.kind = "browse" ∨ a.kind = "reload" ∨ a.kind = "input" ∨
      a.kind = "click" ∨ a.kind = "wait" then
    ({ st with nAct := st.nAct + 1 }, w.actionFails st.nAct)
  else (st, false)

/-- `PlaywrightEngine.execute_action` (lines 222-298): the dispatch,
then the trailing `except`, which absorbs any raise for an optional
action.  Returns the state and whether the call raised to its caller. -/
def executeActionA (w : AWorld) (st : ASt) (a : AAction) : ASt × Bool :=
  let (st, raised) := actionDispatchA w st a
  if raised && a.optional then (st, false) else (st, raised)

/-- The `for action in step_actions` loop of `SmartRetryLoop.run`
(lines 347-348): stop at the first propagated raise. -/
def runActionsA (w : AWorld) : ASt → List AAction → ASt × Bool
  | st, [] => (st, false)
  | st, a :: rest =>
    let (st, raised) := executeActionA w st a
    if raised then (st, true) else runActionsA w st rest

/-- The validation polling loop (lines 365-388): each poll captures a
screenshot (a generated loop file) and asks the oracle; stop at the
first pass or when the poll budget runs out. -/
def pollLoopA (w : AWorld) : ASt → Nat → ASt × Bool
  | st, 0 => (st, false)
  | st, k + 1 =>
    let st := genLoopFile st
    let pass := w.verdictPass st.nVal
    let st := { st with nVal := st.nVal + 1 }
    if pass then (st, true) else pollLoopA w st k

/-- `next((a.get("prompt_ia") for a in step_actions if "prompt_ia" in a), None)`
(line 355). -/
def getPrompt (actions : List AAction) : Option String :=
  actions.findSome? (fun a => a.promptIa)

/-- Python `if validation_prompt:`. -/
def promptTruthy : Option String → Bool
  | some p => p ≠ ""
  | none => false

/-- `validation_settings` come from the LAST action of the step
(line 359); only reached when the step has actions. -/
def lastPollingAttempts (actions : List AAction) : Nat :=
  match actions.getLast? with
  | some la => la.pollingAttempts
  | none => 3

/-- The `while not success and attempts < self.max_retries` loop of one
mission step (lines 341-400), by recursion on the attempts left: run
the actions (a raise is caught and retried); on a clean pass, poll the
oracle when a truthy validation prompt exists, otherwise assume
success. -/
def stepAttemptsA (w : AWorld) (actions : List AAction) : ASt → Nat → ASt × Bool
  | st, 0 => (st, false)
  | st, k + 1 =>
    let (st, raised) := runActionsA w st actions
    if raised then stepAttemptsA w actions st k
    else
      if promptTruthy (getPrompt actions) then
        let (st, ok) := pollLoopA w st (lastPollingAttempts actions)
        if ok then (st, true) else stepAttemptsA w actions st k
      else (st, true)

/-- The `for step_index, step_actions in enumerate(mission_steps)` loop
(lines 335-404) with `max_retries = 3`: a failed step breaks, leaving
`success = False`; otherwise `success` is the last step's outcome. -/
def runMissionSteps (w : AWorld) : ASt → List (List AAction) → ASt × Bool
  | st, [] => (st, true)
  | st, step :: rest =>
    let (st, ok) := stepAttemptsA w step st 3
    if ok then runMissionSteps w st rest else (st, false)

/-- The cleanup of the `finally` block (lines 409-425):
`all_files = engine.generated_files + self.generated_files`; on success
every file other than `all_files[-1]` is removed and `all_files[-1]` is
kept; on failure nothing is removed.  Returns
(removed files, files remaining on disk). -/
def cleanupA (st : ASt) (success : Bool) : List Nat × List Nat :=
  let all := st.engineFiles ++ st.loopFiles
  if success then
    match all.getLast? with
    | none => ([], [])
    | some last => (all.filter (fun f => f ≠ last), all.filter (fun f => f = last))
  else ([], all)

/-- `SmartRetryLoop.run` (lines 330-427).  An empty mission is `none`:
the loop never binds `success`, so the `finally` block raises a
`NameError` and no cleanup decision is reached.  Otherwise returns the
final state, the mission success flag, the removed files and the files
remaining on disk. -/
def runA (w : AWorld) (mission : List (List AAction)) :
    Option (ASt × Bool × List Nat × List Nat) :=
  match mission with
  | [] => none
  | _ :: _ =>
    let (st, ok) := runMissionSteps w {} mission
    let (removed, remaining) := cleanupA st ok
    some (st, ok, removed, remaining)

/-- Run invariant of the artifact model: generated file stamps are
pairwise distinct and below the creation counter. -/
def InvA (st : ASt) : Prop :=
  (st.engineFiles ++ st.loopFiles).Nodup ∧
  ∀ f ∈ st.engineFiles ++ st.loopFiles, f < st.counter

/-! ### Concrete fixtures used to evaluate the model -/

/-- An empty process environment. -/
def env0 : String → Option String := fun _ => none

/-- An empty coordinate table. -/
def coords0 : String → Option String := fun _ => none

/-- A coordinate table whose key `"7"` maps to the empty string. -/
def coordsE : String → Option String := fun k => if k = "7" then some "" else none

/-- A driver where every call succeeds and every read element shows
`"7"`. -/
def wOk : World :=
  ⟨fun _ c => match c with
    | DCall.innerText _ => DResp.ok "7"
    | _ => DResp.ok "", "exec.png"⟩

/-- A driver where every call times out. -/
def wFail : World := ⟨fun _ _ => DResp.fail "Timeout 2000ms exceeded", "exec.png"⟩

/-- A driver whose session start raises. -/
def wStartFail : World :=
  ⟨fun _ c => match c with
    | DCall.start => DResp.fail "browser crashed"
    | _ => DResp.ok "", "exec.png"⟩

/-- A driver where the session starts but every later call raises. -/
def wSeqFail : World :=
  ⟨fun _ c => match c with
    | DCall.start => DResp.ok ""
    | _ => DResp.fail "boom", "exec.png"⟩

/-- An optional `dynamic_input` step. -/
def dynStepOpt : Step :=
  { action := "dynamic_input", element := some "#w", data := some "#r",
    wait_after := 0, optional := true }

/-- A mandatory `dynamic_input` step. -/
def dynStepMand : Step :=
  { action := "dynamic_input", element := some "#w", data := some "#r",
    wait_after := 0 }

/-- A mandatory `click` step. -/
def clickStepB : Step := { action := "click", element := some "#b", wait_after := 0 }

/-- An optional `click` step on a dismissible banner. -/
def optClickStep : Step :=
  { action := "click", element := some "#banner", optional := true }

/-- A sequence of one mandatory click, two attempts, no target. -/
def seqF : Sequence := { title := "s1", intents_number := 2, steps := [clickStepB] }

/-- A sequence with no `target_element` and one `wait` step. -/
def seqNT : Sequence := { title := "nt", steps := [{ action := "wait", wait_after := 0 }] }

/-- Mission world for `SmartRetryLoop`: no driver failure, captcha
element found, preprocessing fails, captcha solved, validation passes. -/
def awNoProc : AWorld :=
  ⟨fun _ => false, fun _ => true, fun _ => false, fun _ => true, fun _ => true⟩

/-- Mission world for `SmartRetryLoop`: no driver failure, captcha
element found, preprocessing succeeds, captcha solved, validation
passes. -/
def awOk : AWorld :=
  ⟨fun _ => false, fun _ => true, fun _ => true, fun _ => true, fun _ => true⟩

/-- A two-step mission: a validated `wait` step (generating a
validation screenshot), then an unvalidated `solve_captcha` step
(generating a captcha crop afterwards). -/
def missTwo : List (List AAction) :=
  [[{ kind := "wait", promptIa := some "p" }], [{ kind := "solve_captcha" }]]

/-- A one-step unvalidated mission containing a captcha solve. -/
def missCap : List (List AAction) := [[{ kind := "solve_captcha" }]]

end Orvi

namespace Orvi

/-! ## C4 — challenge-key normalization -/

/-- C4 counterexample: the claim says a two-character raw key beginning
with `"0"` has exactly one leading zero stripped, so `"00"` would
normalize to `"0"`; the code instead removes every `'0'` character
(`replace("0", "")`), producing `""`. -/
theorem c4_counterexample : normalizeKey "00" ≠ "0" ∧ normalizeKey "00" = "" := by
  decide

/-- C4 (amended): for a two-character raw key `"0" ++ b` whose second
character is neither `'0'` nor whitespace, normalization strips the one
leading zero; a raw key of any other shape is trimmed but otherwise
unchanged; the all-zero key `"00"` collapses to `""` because the code
removes every zero character. -/
theorem c4_normalization :
    (∀ b : Char, b.isWhitespace = false → b ≠ '0' →
      normalizeKey (String.mk ['0', b]) = String.mk [b]) ∧
    (∀ raw : String, ¬(raw.data.head? = some '0' ∧ raw.data.length = 2) →
      normalizeKey raw = String.mk (pstrip raw.data)) ∧
    normalizeKey "00" = "" := by
  refine ⟨?_, ?_, by decide⟩
  · intro b hws hb
    have h0 : Char.isWhitespace '0' = false := by decide
    simp [normalizeKey, pstrip, h0, hws, hb]
  · intro raw h
    unfold normalizeKey
    rw [if_neg h]

/-- C4 witness: `"01"` normalizes to `"1"` and the three-character key
`"007"` is only trimmed. -/
theorem c4_normalization_witness :
    normalizeKey (String.mk ['0', '1']) = String.mk ['1'] ∧
    normalizeKey "007" = String.mk (pstrip "007".data) :=
  ⟨c4_normalization.1 '1' (by decide) (by decide),
   c4_normalization.2.1 "007" (by decide)⟩

/-! ## C8 — `env:NAME` value resolution -/

/-- C8 counterexample: the engine resolver `_resolve_value` returns the
ORIGINAL string (not `""`) for an unset name, and the executor resolver
`resolve_data` looks up only the text before the next `"env:"`
occurrence, so `"env:Aenv:B"` with `A` set (and `Aenv:B` unset) resolves
to `A`'s value rather than `""`. -/
theorem c8_counterexample :
    resolve_value env0 "env:X" = "env:X" ∧ ("env:X" : String) ≠ "" ∧
    resolve_data (fun n => if n = "A" then some "va" else none)
      (some "env:Aenv:B") = some "va" := by
  decide

/-- C8 (amended): the Sequence Executor's `resolve_data` looks up the
text between `env:` and the next `env:` occurrence (the whole `NAME`
when it contains no further `env:`) and yields `""` for an unset name,
never a failure; strings not starting with `env:` resolve to
themselves.  The engine's `_resolve_value`, by contrast, falls back to
the original `env:NAME` string when `NAME` is unset. -/
theorem c8_env_resolution :
    (∀ (env : String → Option String) (rest : List Char),
      env (String.mk (chunkAfterEnv rest)) = none →
      resolve_data env (some (String.mk ('e' :: 'n' :: 'v' :: ':' :: rest))) = some "") ∧
    (∀ (env : String → Option String) (s : String),
      (∀ rest : List Char, s.data ≠ 'e' :: 'n' :: 'v' :: ':' :: rest) →
      resolve_data env (some s) = some s) ∧
    (∀ (env : String → Option String) (rest : List Char),
      env (String.mk rest) = none →
      resolve_value env (String.mk ('e' :: 'n' :: 'v' :: ':' :: rest)) =
        String.mk ('e' :: 'n' :: 'v' :: ':' :: rest)) := by
  refine ⟨?_, ?_, ?_⟩
  · intro env rest h
    simp [resolve_data, h]
  · intro env s h
    obtain ⟨l⟩ := s
    simp only [resolve_data]
  · intro env rest h
    have hdw : (('e' :: 'n' :: 'v' :: ':' :: rest).dropWhile (fun c => c ≠ ':')) =
        ':' :: rest := rfl
    simp [resolve_value, hdw, h]

/-! ## Helper lemmas: every log the step dispatch emits is `INFO` -/

theorem bodyNavigate_levels (w : World) (t : List DCall) (data : Option String) :
    ∀ e ∈ (bodyNavigate w t data).2.1, e.level = "INFO" := by
  cases h : asStr (w.resp t DCall.getUrl) with
  | error m => simp [bodyNavigate, h]
  | ok current =>
    cases data with
    | none => simp [bodyNavigate, h]
    | some d =>
      by_cases hc : rstripSlash current = rstripSlash d <;>
        simp [bodyNavigate, h, hc, infoL, mkLog]

theorem bodyInput_levels (w : World) (t : List DCall) (element data : Option String) :
    (bodyInput w t element data).2.1 = [] := by
  cases element with
  | none => rfl
  | some el =>
    rcases hcs : callSeq w t [DCall.waitForSelector el 5000, DCall.click el,
      DCall.press "Control+A", DCall.press "Backspace"] with ⟨t2, r⟩
    cases r with
    | error m => simp [bodyInput, hcs]
    | ok u =>
      cases data with
      | none => simp [bodyInput, hcs]
      | some d => simp [bodyInput, hcs]

theorem bodyClick_levels (w : World) (t : List DCall) (element : Option String)
    (optional : Bool) : (bodyClick w t element optional).2.1 = [] := by
  cases element with
  | none => rfl
  | some el =>
    rcases hcs : callSeq w t [DCall.waitForSelector el (if optional then 2000 else 5000),
      DCall.click el] with ⟨t2, r⟩
    simp [bodyClick, hcs]

theorem bodyCaptcha_levels (w : World) (t : List DCall) (element data : Option String) :
    ∀ e ∈ (bodyCaptcha w t element data).2.1, e.level = "INFO" := by
  cases data with
  | none => simp [bodyCaptcha]
  | some d =>
    cases h : asBool (w.resp t (DCall.isVisible d)) with
    | error m => simp [bodyCaptcha, h]
    | ok b => cases b <;> simp [bodyCaptcha, h, infoL, mkLog]

theorem bodyDynamicInput_levels (w : World) (coords : String → Option String)
    (t : List DCall) (element data : Option String) :
    ∀ e ∈ (bodyDynamicInput w coords t element data).2.1, e.level = "INFO" := by
  cases data with
  | none => simp [bodyDynamicInput]
  | some rs =>
    cases h1 : asUnit (w.resp t (DCall.waitForSelector rs 5000)) with
    | error m => simp [bodyDynamicInput, h1]
    | ok u =>
      cases h2 : asStr (w.resp (t ++ [DCall.waitForSelector rs 5000]) (DCall.innerText rs)) with
      | error m => simp [bodyDynamicInput, h1, h2]
      | ok raw =>
        cases hk : coords (normalizeKey raw) with
        | none => simp [bodyDynamicInput, h1, h2, hk, infoL, mkLog]
        | some v =>
          by_cases hv : v = ""
          · simp [bodyDynamicInput, h1, h2, hk, hv, infoL, mkLog]
          · cases element with
            | none => simp [bodyDynamicInput, h1, h2, hk, hv, infoL, mkLog]
            | some ws =>
              rcases hcs : callSeq w (t ++ [DCall.waitForSelector rs 5000, DCall.innerText rs])
                  [DCall.waitForSelector ws 5000, DCall.fill ws v] with ⟨t2, r⟩
              simp [bodyDynamicInput, h1, h2, hk, hv, hcs, infoL, mkLog]

theorem dispatchBody_levels (w : World) (env coords : String → Option String)
    (t : List DCall) (step : Step) :
    ∀ e ∈ (dispatchBody w env coords t step).2.1, e.level = "INFO" := by
  unfold dispatchBody
  split
  · exact bodyNavigate_levels _ _ _
  · intro e he; rw [bodyInput_levels] at he; simp at he
  · intro e he; rw [bodyClick_levels] at he; simp at he
  · exact bodyCaptcha_levels _ _ _ _
  · intro e he; simp at he
  · exact bodyDynamicInput_levels _ _ _ _ _
  · intro e he; simp at he

theorem stepBody_levels (w : World) (env coords : String → Option String)
    (t : List DCall) (step : Step) :
    ∀ e ∈ (stepBody w env coords t step).2.1, e.level = "INFO" := by
  rcases hd : dispatchBody w env coords t step with ⟨t1, lg1, r1⟩
  have hlev : ∀ e ∈ lg1, e.level = "INFO" := by
    have h2 := dispatchBody_levels w env coords t step
    rw [hd] at h2; exact h2
  cases r1 with
  | error m => simpa [stepBody, hd] using hlev
  | ok u =>
    by_cases hw : step.wait_after > 0
    · intro e he
      simp [stepBody, hd, hw] at he
      rcases he with he | rfl
      · exact hlev e he
      · rfl
    · simpa [stepBody, hd, hw] using hlev

/-- Shared helper: a `dynamic_input` body whose looked-up value is
falsy (`None` or `""`) stops after the two read calls and raises the
not-found exception. -/
theorem bodyDynamicInput_falsy (w : World) (coords : String → Option String)
    (t : List DCall) (element : Option String) (rs raw : String)
    (h1 : asUnit (w.resp t (DCall.waitForSelector rs 5000)) = Except.ok ())
    (h2 : asStr (w.resp (t ++ [DCall.waitForSelector rs 5000]) (DCall.innerText rs)) =
      Except.ok raw)
    (hmiss : coords (normalizeKey raw) = none ∨ coords (normalizeKey raw) = some "") :
    bodyDynamicInput w coords t element (some rs) =
      (t ++ [DCall.waitForSelector rs 5000, DCall.innerText rs],
       [infoL ("   🔑 Challenge Key Detected: '" ++ normalizeKey raw ++ "' (Raw: '" ++ raw ++ "')")],
       Except.error ("Key '" ++ normalizeKey raw ++ "' not found in provided coordinates")) := by
  rcases hmiss with hm | hm <;> simp [bodyDynamicInput, h1, h2, hm]

/-! ## C7 — optional-step failures -/

/-- C7 counterexample: an optional click whose driver call times out is
absorbed, but both produced log entries carry the default level
`"INFO"` — no `WARNING`-level entry is produced, contradicting the
claim that the failure "produces a warning-level log entry". -/
theorem c7_counterexample :
    processStep wFail env0 coords0 [] optClickStep =
      ([DCall.waitForSelector "#banner" 2000],
       [infoL "➡️ Executing Step: click on #banner (Optional: true)",
        infoL "   ⚠️ Optional step failed/skipped: Timeout 2000ms exceeded. Continuing..."],
       none) := by
  decide

/-- C7 (amended): a driver failure in an optional step does not abort
the attempt — `process_steps` continues into the remaining steps — and
every log entry produced while handling the step has the default level
`"INFO"` (the absorbed failure is logged with a warning marker in its
text), never `ERROR` (nor `WARNING`). -/
theorem c7_optional_logging (w : World) (env coords : String → Option String)
    (t : List DCall) (step : Step) (rest : List Step)
    (h : step.optional = true) :
    (processStep w env coords t step).2.2 = none ∧
    (∀ e ∈ (processStep w env coords t step).2.1, e.level = "INFO") ∧
    (process_steps w env coords t (step :: rest)).2.2 =
      (process_steps w env coords (processStep w env coords t step).1 rest).2.2 ∧
    (process_steps w env coords t (step :: rest)).1 =
      (process_steps w env coords (processStep w env coords t step).1 rest).1 ∧
    (∀ msg, (stepBody w env coords t step).2.2 = Except.error msg →
      infoL ("   ⚠️ Optional step failed/skipped: " ++ msg ++ ". Continuing...") ∈
        (processStep w env coords t step).2.1) := by
  rcases hsb : stepBody w env coords t step with ⟨t1, lg1, r⟩
  have hlev : ∀ e ∈ lg1, e.level = "INFO" := by
    have h2 := stepBody_levels w env coords t step
    rw [hsb] at h2; exact h2
  cases r with
  | ok u =>
    refine ⟨by simp [processStep, hsb], ?_, ?_, ?_, ?_⟩
    · intro e he
      simp [processStep, hsb, infoL, mkLog] at he
      rcases he with rfl | he
      · rfl
      · exact hlev e he
    · rcases hrest : process_steps w env coords t1 rest with ⟨t2, lg2, r2⟩
      simp [process_steps, processStep, hsb, hrest]
    · rcases hrest : process_steps w env coords t1 rest with ⟨t2, lg2, r2⟩
      simp [process_steps, processStep, hsb, hrest]
    · intro msg hmsg
      simp at hmsg
  | error m =>
    refine ⟨by simp [processStep, hsb, h], ?_, ?_, ?_, ?_⟩
    · intro e he
      simp [processStep, hsb, h, infoL, mkLog] at he
      rcases he with rfl | he | rfl
      · rfl
      · exact hlev e he
      · rfl
    · rcases hrest : process_steps w env coords t1 rest with ⟨t2, lg2, r2⟩
      simp [process_steps, processStep, hsb, h, hrest]
    · rcases hrest : process_steps w env coords t1 rest with ⟨t2, lg2, r2⟩
      simp [process_steps, processStep, hsb, h, hrest]
    · intro msg hmsg
      simp at hmsg
      subst hmsg
      simp [processStep, hsb, h]

/-- C7 witness: the concrete optional click of the counterexample is
absorbed and its failure entry is logged at `"INFO"` with the warning
marker. -/
theorem c7_optional_logging_witness :
    (processStep wFail env0 coords0 [] optClickStep).2.2 = none ∧
    infoL "   ⚠️ Optional step failed/skipped: Timeout 2000ms exceeded. Continuing..." ∈
      (processStep wFail env0 coords0 [] optClickStep).2.1 := by
  have h := c7_optional_logging wFail env0 coords0 [] optClickStep [] rfl
  exact ⟨h.1, by
    have h5 := h.2.2.2.2 "Timeout 2000ms exceeded" (by decide)
    simpa using h5⟩

/-! ## C1 — `dynamic_input` lookup miss vs the optional flag -/

/-- C1 counterexample: an OPTIONAL `dynamic_input` step whose key is
absent from the supplied (empty) coordinate table does not abort the
attempt: `process_steps` returns no error and the following click step
is still dispatched to the driver — the optional flag absorbs the
lookup miss. -/
theorem c1_counterexample :
    (process_steps wOk env0 coords0 [] [dynStepOpt, clickStepB]).2.2 = none ∧
    (process_steps wOk env0 coords0 [] [dynStepOpt, clickStepB]).1 =
      [DCall.waitForSelector "#r" 5000, DCall.innerText "#r",
       DCall.waitForSelector "#b" 5000, DCall.click "#b"] := by
  decide

/-- C1 (amended): a `dynamic_input` step whose looked-up key is falsy
in the coordinate table raises the not-found exception inside the step
body; for a non-optional step this aborts the attempt with an
`ERROR`-level log, but for an optional step the exception is absorbed
like any other step failure and the attempt continues. -/
theorem c1_lookup_miss (w : World) (env coords : String → Option String)
    (t : List DCall) (step : Step) (rs raw : String)
    (ha : step.action = "dynamic_input")
    (hd : resolve_data env step.data = some rs)
    (h1 : asUnit (w.resp t (DCall.waitForSelector rs 5000)) = Except.ok ())
    (h2 : asStr (w.resp (t ++ [DCall.waitForSelector rs 5000]) (DCall.innerText rs)) =
      Except.ok raw)
    (hmiss : coords (normalizeKey raw) = none ∨ coords (normalizeKey raw) = some "") :
    (step.optional = false →
      (processStep w env coords t step).2.2 =
        some ("Key '" ++ normalizeKey raw ++ "' not found in provided coordinates") ∧
      mkLog "ERROR" ("❌ Error in step " ++ step.action ++ ": " ++
        ("Key '" ++ normalizeKey raw ++ "' not found in provided coordinates")) ∈
        (processStep w env coords t step).2.1) ∧
    (step.optional = true → (processStep w env coords t step).2.2 = none) := by
  have hbody : stepBody w env coords t step =
      (t ++ [DCall.waitForSelector rs 5000, DCall.innerText rs],
       [infoL ("   🔑 Challenge Key Detected: '" ++ normalizeKey raw ++ "' (Raw: '" ++ raw ++ "')")],
       Except.error ("Key '" ++ normalizeKey raw ++ "' not found in provided coordinates")) := by
    have hdis : dispatchBody w env coords t step =
        bodyDynamicInput w coords t step.element (resolve_data env step.data) := by
      unfold dispatchBody
      rw [ha]
      rfl
    rw [stepBody, hdis, hd, bodyDynamicInput_falsy w coords t step.element rs raw h1 h2 hmiss]
  constructor
  · intro hopt
    constructor
    · simp [processStep, hbody, hopt]
    · simp [processStep, hbody, hopt]
  · intro hopt
    simp [processStep, hbody, hopt]

/-- C1 witness: the mandatory variant of the counterexample's step does
abort with the not-found exception and an `ERROR` log; the optional
variant is absorbed. -/
theorem c1_lookup_miss_witness :
    ((processStep wOk env0 coords0 [] dynStepMand).2.2 =
      some ("Key '" ++ normalizeKey "7" ++ "' not found in provided coordinates")) ∧
    (processStep wOk env0 coords0 [] dynStepOpt).2.2 = none := by
  have hm := c1_lookup_miss wOk env0 coords0 [] dynStepMand "#r" "7" rfl (by decide)
    (by decide) (by decide) (Or.inl rfl)
  have ho := c1_lookup_miss wOk env0 coords0 [] dynStepOpt "#r" "7" rfl (by decide)
    (by decide) (by decide) (Or.inl rfl)
  exact ⟨(hm.1 rfl).1, ho.2 rfl⟩

/-! ## C9 — coordinate values that are present but falsy -/

/-- C9: a `dynamic_input` step whose normalized key maps to the empty
string behaves exactly as if the key were missing: the step body is
identical to the run against a table lacking the key, it raises the
same not-found exception, and no `fill` call is dispatched (the trace
gains only the two read calls). -/
theorem c9_falsy_value (w : World) (env coords coords2 : String → Option String)
    (t : List DCall) (step : Step) (rs raw : String)
    (ha : step.action = "dynamic_input")
    (hd : resolve_data env step.data = some rs)
    (h1 : asUnit (w.resp t (DCall.waitForSelector rs 5000)) = Except.ok ())
    (h2 : asStr (w.resp (t ++ [DCall.waitForSelector rs 5000]) (DCall.innerText rs)) =
      Except.ok raw)
    (hempty : coords (normalizeKey raw) = some "")
    (hmiss : coords2 (normalizeKey raw) = none) :
    stepBody w env coords t step = stepBody w env coords2 t step ∧
    (stepBody w env coords t step).2.2 =
      Except.error ("Key '" ++ normalizeKey raw ++ "' not found in provided coordinates") ∧
    (stepBody w env coords t step).1 =
      t ++ [DCall.waitForSelector rs 5000, DCall.innerText rs] := by
  have hdis : ∀ cs : String → Option String, dispatchBody w env cs t step =
      bodyDynamicInput w cs t step.element (resolve_data env step.data) := by
    intro cs
    unfold dispatchBody
    rw [ha]
    rfl
  have hb1 : stepBody w env coords t step =
      (t ++ [DCall.waitForSelector rs 5000, DCall.innerText rs],
       [infoL ("   🔑 Challenge Key Detected: '" ++ normalizeKey raw ++ "' (Raw: '" ++ raw ++ "')")],
       Except.error ("Key '" ++ normalizeKey raw ++ "' not found in provided coordinates")) := by
    rw [stepBody, hdis coords, hd,
      bodyDynamicInput_falsy w coords t step.element rs raw h1 h2 (Or.inr hempty)]
  have hb2 : stepBody w env coords2 t step =
      (t ++ [DCall.waitForSelector rs 5000, DCall.innerText rs],
       [infoL ("   🔑 Challenge Key Detected: '" ++ normalizeKey raw ++ "' (Raw: '" ++ raw ++ "')")],
       Except.error ("Key '" ++ normalizeKey raw ++ "' not found in provided coordinates")) := by
    rw [stepBody, hdis coords2, hd,
      bodyDynamicInput_falsy w coords2 t step.element rs raw h1 h2 (Or.inl hmiss)]
  rw [hb1, hb2]
  exact ⟨rfl, rfl, rfl⟩

/-- C9 witness: with the table mapping `"7"` to `""`, the concrete
mandatory `dynamic_input` step raises the not-found exception and
dispatches no `fill`. -/
theorem c9_falsy_value_witness :
    (stepBody wOk env0 coordsE [] dynStepMand).2.2 =
      Except.error ("Key '" ++ normalizeKey "7" ++ "' not found in provided coordinates") ∧
    (stepBody wOk env0 coordsE [] dynStepMand).1 =
      [DCall.waitForSelector "#r" 5000, DCall.innerText "#r"] := by
  have h := c9_falsy_value wOk env0 coordsE coords0 [] dynStepMand "#r" "7" rfl
    (by decide) (by decide) (by decide) (by decide) (by decide)
  exact ⟨h.2.1, h.2.2⟩

/-! ## C6 — sequences without a success target -/

/-- C6: for a sequence with no `target_element`, any attempt whose
steps complete without raising returns `true` immediately and adds no
driver call beyond the steps' own (in particular no target wait); an
attempt whose steps raise recurses into the next attempt, likewise
adding no driver call of its own. -/
theorem c6_no_target (w : World) (env coords : String → Option String)
    (seq : Sequence) (t : List DCall) (i n : Nat)
    (h : seq.target_element = none) :
    ((process_steps w env coords t seq.steps).2.2 = none →
      (seqAttempts w env coords seq t i (n + 1)).2.2 = true ∧
      (seqAttempts w env coords seq t i (n + 1)).1 =
        (process_steps w env coords t seq.steps).1) ∧
    (∀ e, (process_steps w env coords t seq.steps).2.2 = some e →
      (seqAttempts w env coords seq t i (n + 1)).2.2 =
        (seqAttempts w env coords seq (process_steps w env coords t seq.steps).1 (i + 1) n).2.2 ∧
      (seqAttempts w env coords seq t i (n + 1)).1 =
        (seqAttempts w env coords seq (process_steps w env coords t seq.steps).1 (i + 1) n).1) := by
  have htt : targetTruthy seq = false := by simp [targetTruthy, h]
  rcases hps : process_steps w env coords t seq.steps with ⟨t1, lg1, err⟩
  rcases hrec : seqAttempts w env coords seq t1 (i + 1) n with ⟨t2, lg2, b⟩
  cases err with
  | none =>
    refine ⟨fun _ => ?_, fun e he => ?_⟩
    · constructor <;> simp [seqAttempts, hps, htt]
    · simp at he
  | some m =>
    refine ⟨fun hnone => ?_, fun e he => ?_⟩
    · simp at hnone
    · constructor <;> simp [seqAttempts, hps, hrec, htt]

/-- C6 witness: the concrete no-target sequence succeeds on its first
clean attempt without any extra driver call. -/
theorem c6_no_target_witness :
    (seqAttempts wOk env0 coords0 seqNT [] 1 1).2.2 = true ∧
    (seqAttempts wOk env0 coords0 seqNT [] 1 1).1 =
      (process_steps wOk env0 coords0 [] seqNT.steps).1 :=
  (c6_no_target wOk env0 coords0 seqNT [] 1 0 rfl).1 (by decide)

/-! ## C2 — attempt exhaustion and mission abort -/

/-- C2: the attempt loop returns `false` exactly when every attempt
fails: with no attempts left it returns `false`; a clean attempt (steps
pass, and the target — when truthy — is found) returns `true`; a failed
attempt (steps raise, or the target wait fails) defers to the remaining
attempts.  When a sequence returns `false`, the mission loop returns
`false`, dispatches nothing further (its trace is the failed
sequence's), and `execute` reports `success = false`. -/
theorem c2_retry_exhaustion (w : World) (env coords : String → Option String)
    (seq : Sequence) :
    (∀ t i, (seqAttempts w env coords seq t i 0).2.2 = false) ∧
    (∀ t i n, (process_steps w env coords t seq.steps).2.2 = none →
      targetTruthy seq = false →
      (seqAttempts w env coords seq t i (n + 1)).2.2 = true) ∧
    (∀ t i n, (process_steps w env coords t seq.steps).2.2 = none →
      targetTruthy seq = true →
      asUnit (w.resp (process_steps w env coords t seq.steps).1
        (DCall.waitForSelector (seq.target_element.getD "") (seq.target_element_wait * 1000))) =
        Except.ok () →
      (seqAttempts w env coords seq t i (n + 1)).2.2 = true) ∧
    (∀ t i n e, (process_steps w env coords t seq.steps).2.2 = some e →
      (seqAttempts w env coords seq t i (n + 1)).2.2 =
        (seqAttempts w env coords seq (process_steps w env coords t seq.steps).1 (i + 1) n).2.2) ∧
    (∀ t i n msg, (process_steps w env coords t seq.steps).2.2 = none →
      targetTruthy seq = true →
      asUnit (w.resp (process_steps w env coords t seq.steps).1
        (DCall.waitForSelector (seq.target_element.getD "") (seq.target_element_wait * 1000))) =
        Except.error msg →
      (seqAttempts w env coords seq t i (n + 1)).2.2 =
        (seqAttempts w env coords seq
          ((process_steps w env coords t seq.steps).1 ++
            [DCall.waitForSelector (seq.target_element.getD "") (seq.target_element_wait * 1000)])
          (i + 1) n).2.2) ∧
    (∀ t (s : Sequence) (rest : List Sequence),
      (process_sequence w env coords t s).2.2 = false →
      (runSeqs w env coords t (s :: rest)).2.2 = false ∧
      (runSeqs w env coords t (s :: rest)).1 = (process_sequence w env coords t s).1) ∧
    (∀ sequences : List Sequence, asUnit (w.resp [] DCall.start) = Except.ok () →
      (runSeqs w env coords [DCall.start] sequences).2.2 = false →
      (execute w env coords sequences).1.success = false) := by
  refine ⟨fun t i => rfl, ?_, ?_, ?_, ?_, ?_, ?_⟩
  · intro t i n hok htt
    rcases hps : process_steps w env coords t seq.steps with ⟨t1, lg1, err⟩
    rw [hps] at hok
    simp at hok
    subst hok
    simp [seqAttempts, hps, htt]
  · intro t i n hok htt hwait
    rcases hps : process_steps w env coords t seq.steps with ⟨t1, lg1, err⟩
    rw [hps] at hok hwait
    simp at hok
    subst hok
    simp [seqAttempts, hps, htt, hwait]
  · intro t i n e he
    rcases hps : process_steps w env coords t seq.steps with ⟨t1, lg1, err⟩
    rw [hps] at he
    simp at he
    subst he
    rcases hrec : seqAttempts w env coords seq t1 (i + 1) n with ⟨t2, lg2, b⟩
    simp [seqAttempts, hps, hrec]
  · intro t i n msg hok htt hwait
    rcases hps : process_steps w env coords t seq.steps with ⟨t1, lg1, err⟩
    rw [hps] at hok hwait
    simp at hok
    subst hok
    rcases hrec : seqAttempts w env coords seq (t1 ++
      [DCall.waitForSelector (seq.target_element.getD "") (seq.target_element_wait * 1000)])
      (i + 1) n with ⟨t2, lg2, b⟩
    simp [seqAttempts, hps, htt, hwait, hrec]
  · intro t s rest hfail
    rcases hpq : process_sequence w env coords t s with ⟨t1, lg1, b⟩
    rw [hpq] at hfail
    simp at hfail
    subst hfail
    simp [runSeqs, hpq]
  · intro sequences hstart hrun
    rcases hrs : runSeqs w env coords [DCall.start] sequences with ⟨t1, lg, ok⟩
    rw [hrs] at hrun
    simp at hrun
    subst hrun
    cases hS : asUnit (w.resp t1 (DCall.screenshot w.screenshotName)) <;>
    cases hT : asUnit (w.resp (t1 ++ [DCall.screenshot w.screenshotName]) DCall.stop) <;>
      simp [execute, hstart, hrs, hS, hT]

/-- C2 witness: a sequence of one mandatory click against a driver
where every post-start call raises exhausts its two attempts, and the
mission result is `success = false`. -/
theorem c2_retry_exhaustion_witness :
    (execute wSeqFail env0 coords0 [seqF]).1.success = false ∧
    (seqAttempts wSeqFail env0 coords0 seqF [] 5 0).2.2 = false := by
  have h := c2_retry_exhaustion wSeqFail env0 coords0 seqF
  exact ⟨h.2.2.2.2.2.2 [seqF] (by decide) (by decide), h.1 [] 5⟩

/-! ## C5 — the mission boundary always returns a result -/

/-- C5: `execute` is a total function into the result record (so no
exception reaches the caller in the model); a raising `engine.start`
inside the `try` is converted into `success = false` with the critical
error text appended to the returned logs, and the screenshot reference
is always either the generated file name or `None`. -/
theorem c5_boundary (w : World) (env coords : String → Option String)
    (seqs : List Sequence) :
    (∀ e, w.resp [] DCall.start = DResp.fail e →
      (execute w env coords seqs).1.success = false ∧
      mkLog "ERROR" ("🔥 CRITICAL UNHANDLED ERROR: " ++ e) ∈
        (execute w env coords seqs).1.logs) ∧
    ((execute w env coords seqs).1.screenshot = none ∨
      (execute w env coords seqs).1.screenshot = some w.screenshotName) := by
  constructor
  · intro e he
    have h0 : asUnit (w.resp [] DCall.start) = Except.error e := by rw [he]; rfl
    constructor <;>
    · cases hS : asUnit (w.resp [DCall.start] (DCall.screenshot w.screenshotName)) <;>
      cases hT : asUnit (w.resp ([DCall.start] ++ [DCall.screenshot w.screenshotName])
          DCall.stop) <;>
        simp [execute, h0, hS, hT]
  · cases h0 : asUnit (w.resp [] DCall.start) with
    | error e =>
      cases hS : asUnit (w.resp [DCall.start] (DCall.screenshot w.screenshotName)) <;>
        simp [execute, h0, hS]
    | ok u =>
      rcases hrs : runSeqs w env coords [DCall.start] seqs with ⟨t1, lg, ok⟩
      cases hS : asUnit (w.resp t1 (DCall.screenshot w.screenshotName)) <;>
        simp [execute, h0, hrs, hS]

/-- C5 witness: a driver whose session start raises yields a failed
result carrying the critical error log. -/
theorem c5_boundary_witness :
    (execute wStartFail env0 coords0 []).1.success = false ∧
    mkLog "ERROR" ("🔥 CRITICAL UNHANDLED ERROR: " ++ "browser crashed") ∈
      (execute wStartFail env0 coords0 []).1.logs := by
  exact (c5_boundary wStartFail env0 coords0 []).1 "browser crashed" (by decide)

/-! ## C10 — the empty mission -/

/-- C10: when the session starts, executing the empty sequence list
succeeds with a non-empty log list, and the driver receives exactly the
session start, the final screenshot and the session stop. -/
theorem c10_empty_mission (w : World) (env coords : String → Option String)
    (h : asUnit (w.resp [] DCall.start) = Except.ok ()) :
    (execute w env coords []).1.success = true ∧
    (execute w env coords []).1.logs ≠ [] ∧
    (execute w env coords []).2 =
      [DCall.start, DCall.screenshot w.screenshotName, DCall.stop] := by
  have hrs : runSeqs w env coords [DCall.start] ([] : List Sequence) =
      ([DCall.start], [], true) := rfl
  cases hS : asUnit (w.resp [DCall.start] (DCall.screenshot w.screenshotName)) <;>
  cases hT : asUnit (w.resp ([DCall.start] ++ [DCall.screenshot w.screenshotName])
      DCall.stop) <;>
    simp [execute, h, hrs, hS, hT]

/-- C10 witness: the all-succeeding driver on the empty mission. -/
theorem c10_empty_mission_witness :
    (execute wOk env0 coords0 []).1.success = true ∧
    (execute wOk env0 coords0 []).1.logs ≠ [] ∧
    (execute wOk env0 coords0 []).2 =
      [DCall.start, DCall.screenshot wOk.screenshotName, DCall.stop] :=
  c10_empty_mission wOk env0 coords0 (by decide)

/-- C8 witness: `env:NAME` with `NAME` unset resolves to `""` through
the executor resolver and to itself through the engine resolver. -/
theorem c8_env_resolution_witness :
    resolve_data env0 (some (String.mk ('e' :: 'n' :: 'v' :: ':' :: ['N', 'A', 'M', 'E']))) =
      some "" ∧
    resolve_value env0 (String.mk ('e' :: 'n' :: 'v' :: ':' :: ['X'])) =
      String.mk ('e' :: 'n' :: 'v' :: ':' :: ['X']) :=
  ⟨c8_env_resolution.1 env0 ['N', 'A', 'M', 'E'] (by decide),
   c8_env_resolution.2.2 env0 ['X'] (by decide)⟩

/-! ## Helper lemmas: the artifact invariant of the mission runner -/

theorem invA_init : InvA {} := by
  constructor <;> simp [ASt.engineFiles, ASt.loopFiles]

theorem invA_genEngineFile (st : ASt) (h : InvA st) : InvA (genEngineFile st) := by
  obtain ⟨hnd, hlt⟩ := h
  have hmem : st.counter ∉ st.engineFiles ++ st.loopFiles := fun hm =>
    absurd (hlt _ hm) (lt_irrefl _)
  constructor
  · show ((st.engineFiles ++ [st.counter]) ++ st.loopFiles).Nodup
    rw [List.append_assoc, List.singleton_append, List.nodup_middle]
    exact List.nodup_cons.mpr ⟨hmem, hnd⟩
  · intro f hf
    show f < st.counter + 1
    simp only [genEngineFile] at hf
    rw [List.append_assoc, List.singleton_append, List.mem_append] at hf
    rcases hf with hf | hf
    · exact Nat.lt_succ_of_lt (hlt f (List.mem_append.mpr (Or.inl hf)))
    · rcases List.mem_cons.mp hf with rfl | hf
      · exact Nat.lt_succ_self _
      · exact Nat.lt_succ_of_lt (hlt f (List.mem_append.mpr (Or.inr hf)))

theorem invA_genLoopFile (st : ASt) (h : InvA st) : InvA (genLoopFile st) := by
  obtain ⟨hnd, hlt⟩ := h
  have hmem : st.counter ∉ st.engineFiles ++ st.loopFiles := fun hm =>
    absurd (hlt _ hm) (lt_irrefl _)
  constructor
  · show (st.engineFiles ++ (st.loopFiles ++ [st.counter])).Nodup
    rw [← List.append_assoc, List.nodup_append]
    refine ⟨hnd, List.nodup_singleton _, ?_⟩
    intro a ha hb
    rw [List.mem_singleton] at hb
    subst hb
    exact hmem ha
  · intro f hf
    show f < st.counter + 1
    simp only [genLoopFile] at hf
    rw [← List.append_assoc, List.mem_append] at hf
    rcases hf with hf | hf
    · exact Nat.lt_succ_of_lt (hlt f hf)
    · rw [List.mem_singleton] at hf
      subst hf
      exact Nat.lt_succ_self _

theorem invA_captchaBody (w : AWorld) (st : ASt) (h : InvA st) :
    InvA (captchaBody w st).1 := by
  unfold captchaBody
  cases hfound : w.captchaFound st.nCap
  · simp only [hfound, Bool.false_eq_true, if_false]
    exact h
  · simp only [hfound, if_true]
    cases hp : w.processOk (genEngineFile { st with nCap := st.nCap + 1 }).nProc
    · simp only [hp, Bool.false_eq_true, if_false]
      exact invA_genEngineFile _ h
    · simp only [hp, if_true]
      exact invA_genEngineFile _ (invA_genEngineFile _ h)

theorem invA_actionDispatchA (w : AWorld) (st : ASt) (a : AAction) (h : InvA st) :
    InvA (actionDispatchA w st a).1 := by
  unfold actionDispatchA
  split
  · exact invA_captchaBody w st h
  · split
    · exact h
    · exact h

theorem invA_executeActionA (w : AWorld) (st : ASt) (a : AAction) (h : InvA st) :
    InvA (executeActionA w st a).1 := by
  unfold executeActionA
  rcases hd : actionDispatchA w st a with ⟨st1, raised⟩
  have h1 : InvA st1 := by
    have h2 := invA_actionDispatchA w st a h
    rw [hd] at h2
    exact h2
  dsimp only
  split <;> exact h1

theorem invA_runActionsA (w : AWorld) (actions : List AAction) :
    ∀ st : ASt, InvA st → InvA (runActionsA w st actions).1 := by
  induction actions with
  | nil => intro st h; exact h
  | cons a rest ih =>
    intro st h
    rcases hE : executeActionA w st a with ⟨st1, raised⟩
    have h1 : InvA st1 := by
      have h2 := invA_executeActionA w st a h
      rw [hE] at h2
      exact h2
    cases raised
    · simpa [runActionsA, hE] using ih st1 h1
    · simpa [runActionsA, hE] using h1

theorem invA_pollLoopA (w : AWorld) (fuel : Nat) :
    ∀ st : ASt, InvA st → InvA (pollLoopA w st fuel).1 := by
  induction fuel with
  | zero => intro st h; exact h
  | succ k ih =>
    intro st h
    have h1 : InvA (genLoopFile st) := invA_genLoopFile st h
    cases hp : w.verdictPass (genLoopFile st).nVal
    · simp only [pollLoopA, hp, Bool.false_eq_true, if_false]
      exact ih _ h1
    · simp only [pollLoopA, hp, if_true]
      exact h1

theorem invA_stepAttemptsA (w : AWorld) (actions : List AAction) (fuel : Nat) :
    ∀ st : ASt, InvA st → InvA (stepAttemptsA w actions st fuel).1 := by
  induction fuel with
  | zero => intro st h; exact h
  | succ k ih =>
    intro st h
    rcases hr : runActionsA w st actions with ⟨st1, raised⟩
    have h1 : InvA st1 := by
      have h2 := invA_runActionsA w actions st h
      rw [hr] at h2
      exact h2
    cases raised
    · cases hpt : promptTruthy (getPrompt actions)
      · simpa [stepAttemptsA, hr, hpt] using h1
      · rcases hpl : pollLoopA w st1 (lastPollingAttempts actions) with ⟨st2, ok⟩
        have h2 : InvA st2 := by
          have h3 := invA_pollLoopA w (lastPollingAttempts actions) st1 h1
          rw [hpl] at h3
          exact h3
        cases ok
        · simpa [stepAttemptsA, hr, hpt, hpl] using ih st2 h2
        · simpa [stepAttemptsA, hr, hpt, hpl] using h2
    · simpa [stepAttemptsA, hr] using ih st1 h1

theorem invA_runMissionSteps (w : AWorld) (mission : List (List AAction)) :
    ∀ st : ASt, InvA st → InvA (runMissionSteps w st mission).1 := by
  induction mission with
  | nil => intro st h; exact h
  | cons m ms ih =>
    intro st h
    rcases hs : stepAttemptsA w m st 3 with ⟨st1, ok⟩
    have h1 : InvA st1 := by
      have h2 := invA_stepAttemptsA w m 3 st h
      rw [hs] at h2
      exact h2
    cases ok
    · simpa [runMissionSteps, hs] using h1
    · simpa [runMissionSteps, hs] using ih st1 h1

/-- Shared helper: cleanup under the invariant — nothing is removed on
failure; on success the last element of the concatenated artifact list
is the unique survivor and everything else is removed. -/
theorem cleanupA_spec (st : ASt) (h : InvA st) :
    cleanupA st false = ([], st.engineFiles ++ st.loopFiles) ∧
    (st.engineFiles ++ st.loopFiles = [] → cleanupA st true = ([], [])) ∧
    (∀ last, (st.engineFiles ++ st.loopFiles).getLast? = some last →
      (cleanupA st true).2 = [last] ∧
      (cleanupA st true).1 =
        (st.engineFiles ++ st.loopFiles).filter (fun f => f ≠ last)) := by
  refine ⟨rfl, ?_, ?_⟩
  · intro h0
    simp [cleanupA, h0]
  · intro last hlast
    have hne : st.engineFiles ++ st.loopFiles ≠ [] := by
      intro h0
      rw [h0] at hlast
      simp at hlast
    have hlastEq : (st.engineFiles ++ st.loopFiles).getLast hne = last := by
      have := List.getLast?_eq_getLast (st.engineFiles ++ st.loopFiles) hne
      rw [this] at hlast
      exact (Option.some.injEq _ _).mp hlast
    have hdrop : (st.engineFiles ++ st.loopFiles).dropLast ++ [last] =
        st.engineFiles ++ st.loopFiles := by
      rw [← hlastEq]
      exact List.dropLast_append_getLast hne
    have hnotmem : last ∉ (st.engineFiles ++ st.loopFiles).dropLast := by
      have hnd := h.1
      rw [← hdrop, List.nodup_append] at hnd
      intro hm
      exact hnd.2.2 hm (List.mem_singleton.mpr rfl)
    constructor
    · show (cleanupA st true).2 = [last]
      simp only [cleanupA, if_true, hlast]
      rw [← hdrop, List.filter_append]
      have h1 : (st.engineFiles ++ st.loopFiles).dropLast.filter (fun f => f = last) = [] := by
        rw [List.filter_eq_nil_iff]
        intro a ha
        simp only [decide_eq_true_eq]
        intro hcontra
        subst hcontra
        exact hnotmem ha
      rw [h1]
      simp
    · simp [cleanupA, hlast]

/-! ## C3 — artifact cleanup after a mission run -/

/-- C3 counterexample: artifact stamps are creation indices (a larger
stamp means a later creation).  In the two-step mission `missTwo` the
first step's validation screenshot (stamp 0) is created before the
second step's captcha crop (stamp 1), yet cleanup keeps
`all_files[-1]` of `engine.generated_files + self.generated_files` —
the validation screenshot — and REMOVES the younger captcha crop, so
the most recently generated artifact does not survive. -/
theorem c3_counterexample :
    runA awNoProc missTwo =
      some (⟨[1], [0], 2, 1, 1, 1, 1, 1⟩, true, [1], [0]) := by
  decide

/-- C3 (amended): on mission failure nothing is removed; on mission
success exactly one artifact survives — the last element of the list
`engine.generated_files ++ loop.generated_files` (the final validation
screenshot when one exists), which need not be the chronologically most
recent artifact — and every other artifact is removed (when no artifact
was generated, nothing is kept or removed). -/
theorem c3_cleanup (w : AWorld) (mission : List (List AAction))
    (st : ASt) (ok : Bool) (removed remaining : List Nat)
    (h : runA w mission = some (st, ok, removed, remaining)) :
    (ok = false → removed = [] ∧ remaining = st.engineFiles ++ st.loopFiles) ∧
    (ok = true →
      (st.engineFiles ++ st.loopFiles = [] → removed = [] ∧ remaining = []) ∧
      (∀ last, (st.engineFiles ++ st.loopFiles).getLast? = some last →
        remaining = [last] ∧
        removed = (st.engineFiles ++ st.loopFiles).filter (fun f => f ≠ last))) := by
  cases mission with
  | nil => simp [runA] at h
  | cons m ms =>
    rcases hrun : runMissionSteps w {} (m :: ms) with ⟨st1, ok1⟩
    have hInv : InvA st1 := by
      have h2 := invA_runMissionSteps w (m :: ms) {} invA_init
      rw [hrun] at h2
      exact h2
    rw [runA, hrun] at h
    dsimp only at h
    rcases hcl : cleanupA st1 ok1 with ⟨rem1, keep1⟩
    rw [hcl] at h
    dsimp only at h
    simp only [Option.some.injEq, Prod.mk.injEq] at h
    obtain ⟨rfl, rfl, rfl, rfl⟩ := h
    have hspec := cleanupA_spec st1 hInv
    constructor
    · intro hok
      subst hok
      rw [hspec.1] at hcl
      injection hcl with h1 h2
      exact ⟨h1.symm, h2.symm⟩
    · intro hok
      subst hok
      constructor
      · intro hempty
        have := hspec.2.1 hempty
        rw [this] at hcl
        injection hcl with h1 h2
        exact ⟨h1.symm, h2.symm⟩
      · intro last hlast
        have h2 := hspec.2.2 last hlast
        rw [hcl] at h2
        exact ⟨h2.1, h2.2⟩

/-- C3 witness: a successful one-step captcha mission generates two
engine artifacts; cleanup keeps exactly the last one and removes the
other. -/
theorem c3_cleanup_witness :
    runA awOk missCap = some (⟨[0, 1], [], 2, 0, 1, 1, 1, 0⟩, true, [0], [1]) ∧
    ([1] : List Nat) = [1] ∧
    ([0] : List Nat) = ([0, 1] : List Nat).filter (fun f => f ≠ 1) := by
  have h := c3_cleanup awOk missCap ⟨[0, 1], [], 2, 0, 1, 1, 1, 0⟩ true [0] [1] (by decide)
  have h2 := (h.2 rfl).2 1 (by decide)
  exact ⟨by decide, h2.1, h2.2⟩

end Orvi
